import Mathlib

/-!
# Effect editor: base/working registries and the diff-aware writer

A shallow embedding of `source/EffectEditor.cpp`.

* `WriteToFile` is the serializer of one effect against its optional base
  definition (`EffectEditor::WriteToFile`).
* `newEffect`, `renameEffect`, `cloneEffect` are the bodies of the three modal
  callbacks of `EffectEditor::Render`; `resetEffect` and `deleteEffect` are the
  "Reset" and "Delete" menu items together with their enabling condition.

Modelling conventions.

* The `double` attributes and the `float` scale are rationals: the code only
  stores, compares and writes them, stored values are finite and `!=` is value
  inequality.  `int` attributes are integers; the code performs no arithmetic
  on them.
* The `float` frame rate is a `Float32`: the code compares it with the float
  constant `2.f / 60.f` and writes the float product with `60.f`, so the
  constant is the rounded quotient and the product is rounded to the nearest
  float, ties to even.
* A pointer to an entity owned by a registry is the key under which the
  registry currently stores it; the null pointer is `none`.
* A pointer to a sprite or a sound is the handle itself; every name resolves
  to one handle, so pointer comparison is comparison of handles.
-/

namespace EffectEditor

/-! ## Single-precision floats -/

/-- A `float` (IEEE 754 binary32).  A finite float is a whole number of units
of 2⁻¹⁴⁹, the smallest positive float; the finite floats are the values below
2¹²⁸ in magnitude whose number of units has at most 24 significant bits.  Both
zeros are `finite 0`: they compare equal. -/
inductive Float32 where
  | finite (units : Int)
  | inf (negative : Bool)
  | nan
deriving DecidableEq

/-- The float of a natural number below 2²⁴, such as `60.f`. -/
def Float32.ofNat (n : Nat) : Float32 := Float32.finite ((n : Int) * 2 ^ 149)

/-- How many low bits of `n` do not fit in a 24-bit significand: the number of
halvings that bring `n` below 2²⁴ (`fuel`, at least that number, bounds the
recursion). -/
def Float32.excessBits : Nat → Nat → Nat
  | 0, _ => 0
  | fuel + 1, n => if n < 2 ^ 24 then 0 else Float32.excessBits fuel (n / 2) + 1

/-- Round a number of units to a 24-bit significand, to the nearest, ties to
the even significand. -/
def Float32.roundUnits (n : Nat) : Nat :=
  let s := Float32.excessBits n n
  if s = 0 then n
  else
    let q := n / 2 ^ s
    let r := n % 2 ^ s
    let half := 2 ^ (s - 1)
    if half < r ∨ (r = half ∧ q % 2 = 1) then (q + 1) * 2 ^ s else q * 2 ^ s

/-- The float product `x * n.f` for a natural number `n` below 2²⁴: the exact
product rounded to the nearest float, an infinity when the rounded magnitude
reaches 2¹²⁸. -/
def Float32.mulNat (x : Float32) (n : Nat) : Float32 :=
  match x with
  | Float32.finite k =>
    let m := Float32.roundUnits (k.natAbs * n)
    if 2 ^ 128 * 2 ^ 149 ≤ m then Float32.inf (decide (k < 0))
    else Float32.finite (if k < 0 then -(m : Int) else (m : Int))
  | Float32.inf negative => if n = 0 then Float32.nan else Float32.inf negative
  | Float32.nan => Float32.nan

/-- The float constant `2.f / 60.f`: the quotient 1/30 rounded to the nearest
float, 8947849 · 2⁻²⁸. -/
def Float32.frameRateDefault : Float32 := Float32.finite (8947849 * 2 ^ 121)

/-- The float nearest to 0.1, 13421773 · 2⁻²⁷. -/
def Float32.tenth : Float32 := Float32.finite (13421773 * 2 ^ 122)

/-! ## Data model -/

/-- Modelled from the spec: the sprite handle (`image/Sprite.h` is not part of
the sources at hand).  It exposes a name for serialization; it is non-empty
when it has at least one frame. -/
structure Sprite where
  name : String
  frames : Nat
deriving DecidableEq, Repr

/-- Modelled from the spec: the sound handle (`audio/Sound.h` is not part of
the sources at hand); it exposes only its name. -/
structure Sound where
  name : String
deriving DecidableEq, Repr

/-- Modelled from the spec: the fields of `Effect` (and of its `Body` part)
that the editor reads and writes; `Effect.h` is not part of the sources at
hand. -/
structure Effect where
  name : String
  sprite : Option Sprite
  scale : ℚ
  frameRate : Float32
  delay : Int
  randomize : Bool
  repeat_ : Bool
  rewind : Bool
  sound : Option Sound
  lifetime : Int
  randomLifetime : Int
  velocityScale : ℚ
  randomAngle : ℚ
  randomVelocity : ℚ
  randomSpin : ℚ
  randomFrameRate : ℚ
deriving DecidableEq

/-- Modelled from the spec: the default-initialized effect, every attribute at
its canonical default (no sprite, no sound, scale 1, frame rate `2.f / 60.f`
per tick, delay 0, flags off except `repeat_` (the source's `repeat`), velocity scale 1,
every other number 0) and an empty name. -/
def Effect.default : Effect where
  name := ""
  sprite := none
  scale := 1
  frameRate := Float32.frameRateDefault
  delay := 0
  randomize := false
  repeat_ := true
  rewind := false
  sound := none
  lifetime := 0
  randomLifetime := 0
  velocityScale := 1
  randomAngle := 0
  randomVelocity := 0
  randomSpin := 0
  randomFrameRate := 0

/-- Modelled from the spec: `Body::HasSprite`, true iff the sprite reference is
present and non-empty. -/
def Effect.HasSprite (e : Effect) : Bool :=
  match e.sprite with
  | some s => decide (s.frames ≠ 0)
  | none => false

/-! ## The structured sink -/

/-- One value written after a key. -/
inductive Token where
  | str (s : String)
  | int (i : Int)
  | num (q : ℚ)
  | float (f : Float32)
deriving DecidableEq

/-- One emitted statement: its nesting depth, its key and its values. -/
structure Line where
  depth : Nat
  key : String
  args : List Token
deriving DecidableEq

/-- Modelled from the spec: the structured sink (`DataWriter.h` is not part of
the sources at hand): the current nesting depth and the statements written so
far, oldest first. -/
structure DataWriter where
  indent : Nat
  lines : List Line
deriving DecidableEq

/-- Modelled from the spec: `WriteKeyedValue`, append one statement at the
current depth. -/
def DataWriter.Write (w : DataWriter) (key : String) (args : List Token) : DataWriter :=
  { w with lines := w.lines ++ [Line.mk w.indent key args] }

/-- Modelled from the spec: `BeginChild`, enter one nesting level. -/
def DataWriter.BeginChild (w : DataWriter) : DataWriter :=
  { w with indent := w.indent + 1 }

/-- Modelled from the spec: `EndChild`, leave one nesting level. -/
def DataWriter.EndChild (w : DataWriter) : DataWriter :=
  { w with indent := w.indent - 1 }

/-- The sink before anything is written. -/
def DataWriter.empty : DataWriter := DataWriter.mk 0 []

/-! ## The named registry -/

/-- Modelled from the spec: `NamedRegistry<Effect>` (`Set.h` is not part of the
sources at hand), a mapping from name to owned entity. -/
abbrev Registry := String → Option Effect

/-- The registry without any entity. -/
def Registry.empty : Registry := fun _ => none

/-- Modelled from the spec: `Has(name)`, true iff an entity is stored under
`name`. -/
def Registry.Has (r : Registry) (name : String) : Bool := (r name).isSome

/-- Modelled from the spec: `Find(name)`, the non-mutating lookup. -/
def Registry.Find (r : Registry) (name : String) : Option Effect := r name

/-- Store `e` under `key`, replacing what was there: an assignment through a
pointer to the entity stored under `key`. -/
def Registry.store (r : Registry) (key : String) (e : Effect) : Registry :=
  fun k => if k = key then some e else r k

/-- Modelled from the spec: `Get(name)`, get-or-create.  Returns the entity
stored under `name` and the registry after the call: when `name` was absent a
default-initialized entity has been constructed under it. -/
def Registry.Get (r : Registry) (name : String) : Effect × Registry :=
  match r name with
  | some e => (e, r)
  | none => (Effect.default, r.store name Effect.default)

/-- Modelled from the spec: `Erase(name)`, remove the entity if present. -/
def Registry.Erase (r : Registry) (name : String) : Registry :=
  fun k => if k = name then none else r k

/-- Whether `Rename(oldName, newName)` moves an entity: the new name is free
and the old one is taken. -/
def Registry.moves (r : Registry) (oldName newName : String) : Bool :=
  !r.Has newName && r.Has oldName

/-- Modelled from the spec: `Rename(oldName, newName)`.  Nothing happens when
`newName` already exists; otherwise the entity stored under `oldName` (if any)
is moved to `newName` with all its attributes. -/
def Registry.Rename (r : Registry) (oldName newName : String) : Registry :=
  if r.Has newName then r
  else
    match r oldName with
    | none => r
    | some e => fun k => if k = newName then some e else if k = oldName then none else r k

/-- Modelled from the spec: `Rename` preserves identity, so a pointer to the
moved entity stays valid: in this model it becomes the new key. -/
def Registry.follow (r : Registry) (oldName newName : String) (p : String) : String :=
  if r.moves oldName newName && decide (p = oldName) then newName else p

/-! ## The serializer -/

/-- The diff target of `WriteToFile` (lines 162-164):
`base.Has(name) ? base.Get(name) : nullptr`, together with the base registry
after the two calls. -/
def diffTarget (base : Registry) (name : String) : Option Effect × Registry :=
  if base.Has name then
    let r := base.Get name
    (some r.1, r.2)
  else (none, base)

/-- The sprite block of `WriteToFile` (lines 169-187).  The test
`!diff || effect->sprite != diff->sprite` is `diff.all ...`: true without a
diff target, and the comparison with it otherwise. -/
def writeSprite (diff : Option Effect) (writer : DataWriter) (effect : Effect) : DataWriter :=
  if diff.all (fun d => decide (effect.sprite ≠ d.sprite)) then
    if effect.HasSprite then
      let writer := writer.Write "sprite"
        (match effect.sprite with
         | some s => [Token.str s.name]
         | none => [])
      let writer := writer.BeginChild
      let writer := if effect.scale ≠ 1 then
        writer.Write "scale" [Token.num effect.scale] else writer
      let writer := if effect.frameRate ≠ Float32.frameRateDefault then
        writer.Write "frame rate" [Token.float (effect.frameRate.mulNat 60)] else writer
      let writer := if effect.delay ≠ 0 then
        writer.Write "delay" [Token.int effect.delay] else writer
      let writer := if effect.randomize then
        writer.Write "random start frame" [] else writer
      let writer := if !effect.repeat_ then
        writer.Write "no repeat" [] else writer
      let writer := if effect.rewind then
        writer.Write "rewind" [] else writer
      writer.EndChild
    else writer
  else writer

/-- The sound and numeric attributes of `WriteToFile` (lines 189-212). -/
def writeScalars (diff : Option Effect) (writer : DataWriter) (effect : Effect) : DataWriter :=
  let writer :=
    if diff.all (fun d => decide (effect.sound ≠ d.sound)) then
      match effect.sound with
      | some s => writer.Write "sound" [Token.str s.name]
      | none => writer
    else writer
  let writer :=
    if diff.all (fun d => decide (effect.lifetime ≠ d.lifetime)) then
      if effect.lifetime ≠ 0 ∨ diff.isSome then
        writer.Write "lifetime" [Token.int effect.lifetime] else writer
    else writer
  let writer :=
    if diff.all (fun d => decide (effect.randomLifetime ≠ d.randomLifetime)) then
      if effect.randomLifetime ≠ 0 ∨ diff.isSome then
        writer.Write "random lifetime" [Token.int effect.randomLifetime] else writer
    else writer
  let writer :=
    if diff.all (fun d => decide (effect.velocityScale ≠ d.velocityScale)) then
      if effect.velocityScale ≠ 1 ∨ diff.isSome then
        writer.Write "velocity scale" [Token.num effect.velocityScale] else writer
    else writer
  let writer :=
    if diff.all (fun d => decide (effect.randomAngle ≠ d.randomAngle)) then
      if effect.randomAngle ≠ 0 ∨ diff.isSome then
        writer.Write "random angle" [Token.num effect.randomAngle] else writer
    else writer
  let writer :=
    if diff.all (fun d => decide (effect.randomVelocity ≠ d.randomVelocity)) then
      if effect.randomVelocity ≠ 0 ∨ diff.isSome then
        writer.Write "random velocity" [Token.num effect.randomVelocity] else writer
    else writer
  let writer :=
    if diff.all (fun d => decide (effect.randomSpin ≠ d.randomSpin)) then
      if effect.randomSpin ≠ 0 ∨ diff.isSome then
        writer.Write "random spin" [Token.num effect.randomSpin] else writer
    else writer
  let writer :=
    if diff.all (fun d => decide (effect.randomFrameRate ≠ d.randomFrameRate)) then
      if effect.randomFrameRate ≠ 0 ∨ diff.isSome then
        writer.Write "random frame rate" [Token.num effect.randomFrameRate] else writer
    else writer
  writer

/-- The serializer `EffectEditor::WriteToFile` (lines 160-214): the sink and
the base registry after the call. -/
def WriteToFile (base : Registry) (writer : DataWriter) (effect : Effect) :
    DataWriter × Registry :=
  let t := diffTarget base effect.name
  let diff := t.1
  let writer := writer.Write "effect" [Token.str effect.name]
  let writer := writer.BeginChild
  let writer := writeSprite diff writer effect
  let writer := writeScalars diff writer effect
  (writer.EndChild, t.2)

/-- Modelled from the spec: the override tracker (`Plugin.h` is not part of the
sources at hand), a set of entity identities; an identity is a pointer, so a
key of the working registry. -/
abbrev Plugin := List String

/-- Modelled from the spec: `Contains(identity)`. -/
def Plugin.Has (p : Plugin) (obj : String) : Bool := decide (obj ∈ p)

/-- Modelled from the spec: `Mark(identity)`. -/
def Plugin.Add (p : Plugin) (obj : String) : Plugin :=
  if obj ∈ p then p else obj :: p

/-- Modelled from the spec: `Unmark(identity)`. -/
def Plugin.Remove (p : Plugin) (obj : String) : Plugin :=
  p.filter (fun q => decide (q ≠ obj))

/-- The state the editor works on: `editor.BaseUniverse().effects`,
`editor.Universe().effects`, `editor.GetPlugin()` and the selected `object`
(a pointer into the working registry, or null). -/
structure State where
  base : Registry
  working : Registry
  plugin : Plugin
  object : Option String

/-- The entity `object` points to, if `object` is a live pointer. -/
def State.selected (s : State) : Option Effect :=
  s.object.bind s.working

/-- Modelled from the spec: `SetDirty()` (`TemplateEditor.h` is not part of the
sources at hand) marks the selected entity as overridden. -/
def State.SetDirty (s : State) : State :=
  match s.object with
  | some k => { s with plugin := s.plugin.Add k }
  | none => s

/-- The callback of the "New Effect" modal (lines 87-96). -/
def newEffect (s : State) (name : String) : State :=
  if (s.working.Find name).isSome then s
  else
    let r := s.working.Get name
    let working := r.2.store name { r.1 with name := name }
    State.SetDirty { s with working := working, object := some name }

/-- The callback of the "Rename Effect" modal (lines 97-105).  `Rename` moves
the entity stored under `object->name`; pointers to the moved entity (the
selection, entries of the plugin) stay valid, which `follow` expresses on
keys; then the name of the selected entity is set.  Without a live `object`
(which the menu excludes) the state is left as it is. -/
def renameEffect (s : State) (name : String) : State :=
  if (s.working.Find name).isSome then s
  else
    match s.object with
    | none => s
    | some k =>
      match s.working k with
      | none => s
      | some e =>
        let working := s.working.Rename e.name name
        let follow := s.working.follow e.name name
        let working := working.store (follow k) { e with name := name }
        State.SetDirty
          { s with working := working, plugin := s.plugin.map follow, object := some (follow k) }

/-- The callback of the "Clone Effect" modal (lines 106-117).  Without a live
`object` (which the menu excludes) the state is left as it is. -/
def cloneEffect (s : State) (name : String) : State :=
  if (s.working.Find name).isSome then s
  else
    let r := s.working.Get name
    match s.object.bind r.2 with
    | none => s
    | some e =>
      let working := r.2.store name e
      let working := working.store name { e with name := name }
      State.SetDirty { s with working := working, object := some name }

/-- The condition `alreadyDefined` of line 61:
`object && !editor.BaseUniverse().effects.Has(object->name)`. -/
def alreadyDefined (s : State) : Bool :=
  match s.selected with
  | some e => !s.base.Has e.name
  | none => false

/-- Whether the "Reset" menu item is enabled (line 65). -/
def resetEnabled (s : State) : Bool :=
  alreadyDefined s && s.object.any s.plugin.Has

/-- The "Reset" menu item (lines 65-69): when enabled, the selected entity is
removed from the plugin and overwritten with `*base.Get(object->name)`; a
disabled item cannot be activated. -/
def resetEffect (s : State) : State :=
  if resetEnabled s then
    match s.object, s.selected with
    | some k, some e =>
      let r := s.base.Get e.name
      { s with plugin := s.plugin.Remove k, base := r.2, working := s.working.store k r.1 }
    | _, _ => s
  else s

/-- The "Delete" menu item (lines 70-75): when enabled, the selected entity is
removed from the plugin and erased from the working registry, and the
selection is cleared. -/
def deleteEffect (s : State) : State :=
  if alreadyDefined s then
    match s.object, s.selected with
    | some k, some e =>
      { s with plugin := s.plugin.Remove k, working := s.working.Erase e.name, object := none }
    | _, _ => s
  else s

/-- An edit of `RenderEffect` (lines 133-156): an input widget changes
attributes of the selected entity in place and calls `SetDirty()`. -/
def editSelected (s : State) (f : Effect → Effect) : State :=
  match s.object, s.selected with
  | some k, some e => State.SetDirty { s with working := s.working.store k (f e) }
  | _, _ => s

/-! ## Invariants and vocabulary of the properties -/

/-- Name/key consistency: every entity of the working registry is stored under
its own name. -/
def NameKeyConsistent (s : State) : Prop :=
  ∀ k e, s.working k = some e → e.name = k

/-- The top-level attributes of an effect, as the serializer knows them. -/
inductive Attr where
  | sprite
  | sound
  | lifetime
  | randomLifetime
  | velocityScale
  | randomAngle
  | randomVelocity
  | randomSpin
  | randomFrameRate
deriving DecidableEq

/-- The key under which an attribute is written. -/
def Attr.key : Attr → String
  | Attr.sprite => "sprite"
  | Attr.sound => "sound"
  | Attr.lifetime => "lifetime"
  | Attr.randomLifetime => "random lifetime"
  | Attr.velocityScale => "velocity scale"
  | Attr.randomAngle => "random angle"
  | Attr.randomVelocity => "random velocity"
  | Attr.randomSpin => "random spin"
  | Attr.randomFrameRate => "random frame rate"

/-- The value of an attribute in `w`, as written after the key (nothing for an
absent sprite or sound). -/
def Attr.args (a : Attr) (w : Effect) : List Token :=
  match a with
  | Attr.sprite =>
    match w.sprite with
    | some s => [Token.str s.name]
    | none => []
  | Attr.sound =>
    match w.sound with
    | some s => [Token.str s.name]
    | none => []
  | Attr.lifetime => [Token.int w.lifetime]
  | Attr.randomLifetime => [Token.int w.randomLifetime]
  | Attr.velocityScale => [Token.num w.velocityScale]
  | Attr.randomAngle => [Token.num w.randomAngle]
  | Attr.randomVelocity => [Token.num w.randomVelocity]
  | Attr.randomSpin => [Token.num w.randomSpin]
  | Attr.randomFrameRate => [Token.num w.randomFrameRate]

/-- The registry that holds exactly `e`, under its own name. -/
def Registry.single (e : Effect) : Registry := Registry.empty.store e.name e

/-- The new effect "spark": random angle 3, everything else at its default. -/
def spark : Effect := { Effect.default with name := "spark", randomAngle := 3 }

/-- The base effect "explosion": lifetime 20, velocity scale 1, random spin 0. -/
def explosionBase : Effect :=
  { Effect.default with name := "explosion", lifetime := 20, velocityScale := 1, randomSpin := 0 }

/-- The working copy of "explosion": random spin 5, otherwise as the base. -/
def explosion : Effect := { explosionBase with randomSpin := 5 }

/-- The editor before anything is loaded, created or selected. -/
def State.initial : State := State.mk Registry.empty Registry.empty [] none

/-- A state of the editor: the base registry is empty, the working registry
holds the plugin's own effect "spark", which is selected and tracked
(as after `New` with the name "spark" and an edit of the random angle). -/
def sparkState : State :=
  State.mk Registry.empty (Registry.single spark) ["spark"] (some "spark")

/-- A state of the editor: "explosion" is defined by the base registry and
overridden in the working registry; it is selected and tracked. -/
def explosionState : State :=
  State.mk (Registry.single explosionBase) (Registry.single explosion) ["explosion"]
    (some "explosion")

end EffectEditor

/-! ## Facts about the float model -/

namespace EffectEditor

set_option maxRecDepth 100000 in
/-- The constant `2.f / 60.f` is the float nearest to 1/30: its significand
8947849 has 24 bits, its unit in the last place is 2⁻²⁸, and it is less than
half such a unit away from 1/30. -/
theorem frameRateDefault_nearest :
    Float32.frameRateDefault = Float32.finite (8947849 * 2 ^ 28 * 2 ^ 93) ∧
      (2 ^ 23 ≤ 8947849 ∧ 8947849 < 2 ^ 24) ∧
      2 * (30 * 8947849 - 2 ^ 28 : Int).natAbs < 30 := by
  decide

set_option maxRecDepth 100000 in
/-- The float products the serializer computes for a frame rate of 0.1 and of
1.05 (as floats) per tick: 6 and 16515071 · 2⁻¹⁸ per second; the product of
the default frame rate is 2. -/
theorem mulNat_sixty_examples :
    Float32.tenth.mulNat 60 = Float32.ofNat 6 ∧
      (Float32.finite (4404019 * 2 ^ 127)).mulNat 60 = Float32.finite (16515071 * 2 ^ 131) ∧
      Float32.frameRateDefault.mulNat 60 = Float32.ofNat 2 := by
  decide

end EffectEditor

/-! ## The shape of the serializer's output -/

namespace EffectEditor

theorem diffTarget_eq (base : Registry) (name : String) :
    diffTarget base name = (base.Find name, base) := by
  unfold diffTarget Registry.Has Registry.Get Registry.Find
  cases h : base name <;> simp

/-- The serializer leaves the base registry as it found it: its only `Get` on
the base registry is guarded by `Has`. -/
theorem WriteToFile_base (base : Registry) (wr : DataWriter) (w : Effect) :
    (WriteToFile base wr w).2 = base := by
  simp [WriteToFile, diffTarget_eq]

/-- Reset does nothing on an effect whose name the base registry defines: the
menu item is disabled. -/
theorem resetEffect_of_base (s : State) (e : Effect) (h : s.selected = some e)
    (hb : s.base.Has e.name = true) : resetEffect s = s := by
  simp [resetEffect, resetEnabled, alreadyDefined, h, hb]

theorem SetDirty_base (s : State) : (State.SetDirty s).base = s.base := by
  unfold State.SetDirty
  split <;> rfl

theorem SetDirty_working (s : State) : (State.SetDirty s).working = s.working := by
  unfold State.SetDirty
  split <;> rfl

theorem SetDirty_object (s : State) : (State.SetDirty s).object = s.object := by
  unfold State.SetDirty
  split <;> rfl

theorem newEffect_base (s : State) (name : String) : (newEffect s name).base = s.base := by
  unfold newEffect
  split
  · rfl
  · simp only [SetDirty_base]

theorem renameEffect_base (s : State) (name : String) :
    (renameEffect s name).base = s.base := by
  unfold renameEffect
  split
  · rfl
  · cases ho : s.object with
    | none => rfl
    | some k =>
      cases hk : s.working k with
      | none => simp only [hk]
      | some e => simp only [hk, SetDirty_base]

theorem cloneEffect_base (s : State) (name : String) : (cloneEffect s name).base = s.base := by
  unfold cloneEffect
  split
  · rfl
  · cases hk : s.object.bind (s.working.Get name).2 with
    | none => simp only [hk]
    | some e => simp only [hk, SetDirty_base]

theorem deleteEffect_base (s : State) : (deleteEffect s).base = s.base := by
  unfold deleteEffect
  split
  · split <;> rfl
  · rfl

/-- The state `sparkState` is reached from the initial state by New with the
name "spark" and an edit of the random angle. -/
theorem sparkState_reached :
    editSelected (newEffect State.initial "spark") (fun e => { e with randomAngle := 3 })
      = sparkState := by
  have hw : (editSelected (newEffect State.initial "spark")
      (fun e => { e with randomAngle := 3 })).working = Registry.single spark := by
    funext k
    by_cases hk : k = "spark" <;>
      simp [editSelected, newEffect, State.initial, State.SetDirty, State.selected,
        Registry.Find, Registry.Get, Registry.empty, Registry.store, Registry.single, spark, hk]
  have h : editSelected (newEffect State.initial "spark") (fun e => { e with randomAngle := 3 })
      = State.mk Registry.empty (editSelected (newEffect State.initial "spark")
          (fun e => { e with randomAngle := 3 })).working ["spark"] (some "spark") := by
    simp [editSelected, newEffect, State.initial, State.SetDirty, State.selected,
      Registry.Find, Registry.Get, Registry.empty, Registry.store, Plugin.Add]
  rw [h, hw]
  rfl

/-- The state `explosionState` is reached by an edit of the random spin of the
selected, not yet overridden "explosion". -/
theorem explosionState_reached :
    editSelected
        (State.mk (Registry.single explosionBase) (Registry.single explosionBase) []
          (some "explosion"))
        (fun e => { e with randomSpin := 5 })
      = explosionState := by
  have hw : (Registry.single explosionBase).store "explosion" explosion
      = Registry.single explosion := by
    funext k
    by_cases hk : k = "explosion" <;>
      simp [Registry.store, Registry.single, Registry.empty, explosion, explosionBase, hk]
  have h : editSelected
        (State.mk (Registry.single explosionBase) (Registry.single explosionBase) []
          (some "explosion"))
        (fun e => { e with randomSpin := 5 })
      = State.mk (Registry.single explosionBase)
          ((Registry.single explosionBase).store "explosion" explosion) ["explosion"]
          (some "explosion") := by
    simp [editSelected, State.SetDirty, State.selected, Registry.single, Registry.store,
      Registry.empty, Plugin.Add, explosion, explosionBase]
  rw [h, hw]
  rfl

/-- C3: the code runs Reset where the claim has it rejected.  In `sparkState`
the base registry has no "spark", yet the menu item is enabled, and Reset
untracks the effect and overwrites it with a default-initialized entity that
`Get` has just created in the base registry. -/
theorem reset_runs_without_base :
    sparkState.base.Has "spark" = false ∧
      resetEnabled sparkState = true ∧
      sparkState.plugin.Has "spark" = true ∧
      (resetEffect sparkState).plugin.Has "spark" = false ∧
      sparkState.working "spark" = some spark ∧
      (resetEffect sparkState).working "spark" = some Effect.default := by
  refine ⟨by decide, by decide, by decide, by decide, rfl, rfl⟩

/-- C4: the code rejects Reset where the claim has it take effect.  In
`explosionState` the effect is in both registries and tracked, yet Reset
leaves the state as it is: the working entity still differs from the base
entity and is still tracked. -/
theorem reset_rejected_with_base :
    explosionState.base.Has "explosion" = true ∧
      explosionState.working.Has "explosion" = true ∧
      explosionState.plugin.Has "explosion" = true ∧
      resetEffect explosionState = explosionState ∧
      (resetEffect explosionState).working "explosion" = some explosion ∧
      explosionState.base "explosion" = some explosionBase ∧
      explosion.randomSpin ≠ explosionBase.randomSpin := by
  have h : resetEffect explosionState = explosionState :=
    resetEffect_of_base explosionState explosion rfl (by decide)
  refine ⟨by decide, by decide, by decide, h, ?_, rfl, by decide⟩
  rw [h]
  rfl

/-- C5: Reset changes the base registry.  In `sparkState` the base registry has
no "spark" before Reset and a default-initialized "spark" after it. -/
theorem reset_creates_base_entry :
    sparkState.base "spark" = none ∧
      (resetEffect sparkState).base "spark" = some Effect.default :=
  ⟨rfl, rfl⟩

/-- C5, the rest of the claim: New, Rename, Clone, Delete and WriteToFile leave
the base registry as it is, in every state and for every argument. -/
theorem base_unchanged_but_by_reset (s : State) (name : String) (wr : DataWriter) (w : Effect) :
    (newEffect s name).base = s.base ∧ (renameEffect s name).base = s.base ∧
      (cloneEffect s name).base = s.base ∧ (deleteEffect s).base = s.base ∧
      (WriteToFile s.base wr w).2 = s.base :=
  ⟨newEffect_base s name, renameEffect_base s name, cloneEffect_base s name,
   deleteEffect_base s, WriteToFile_base s.base wr w⟩

/-- C7: New, Rename and Clone with a name that the working registry already
holds are rejected and change nothing: the state after the call (working
registry, base registry, plugin and selection) is the state before it. -/
theorem duplicate_name_rejected (s : State) (name : String)
    (h : (s.working.Find name).isSome = true) :
    newEffect s name = s ∧ renameEffect s name = s ∧ cloneEffect s name = s := by
  refine ⟨?_, ?_, ?_⟩
  · unfold newEffect
    rw [if_pos h]
  · unfold renameEffect
    rw [if_pos h]
  · unfold cloneEffect
    rw [if_pos h]

/-- C7, witness: in `sparkState` the name "spark" is taken. -/
theorem duplicate_spark_rejected :
    (sparkState.working.Find "spark").isSome = true ∧
      (newEffect sparkState "spark" = sparkState ∧ renameEffect sparkState "spark" = sparkState ∧
        cloneEffect sparkState "spark" = sparkState) :=
  ⟨by decide, duplicate_name_rejected sparkState "spark" (by decide)⟩

theorem store_same (r : Registry) (k : String) (e : Effect) : r.store k e k = some e := by
  simp [Registry.store]

theorem store_other (r : Registry) (k k2 : String) (e : Effect) (h : k2 ≠ k) :
    r.store k e k2 = r k2 := by
  simp [Registry.store, h]

theorem cloneEffect_accepted (s : State) (a b : String) (e : Effect)
    (ho : s.object = some a) (ha : s.working a = some e) (hb : s.working b = none) :
    cloneEffect s b = State.SetDirty
      { s with working := ((s.working.store b Effect.default).store b e).store b
                 { e with name := b },
               object := some b } := by
  have hab : a ≠ b := by
    rintro rfl
    rw [ha] at hb
    cases hb
  have hg : s.working.Get b = (Effect.default, s.working.store b Effect.default) := by
    simp [Registry.Get, hb]
  have hd : s.object.bind (s.working.store b Effect.default) = some e := by
    simp [ho, store_other _ _ _ _ hab, ha]
  unfold cloneEffect
  simp only [Registry.Find, hb, Option.isSome_none, Bool.false_eq_true, if_false, hg, hd]

/-- C8: when an effect `e` stored under `a` is selected and `b` is not in the
working registry, Clone with the name `b` leaves the working registry with an
entity under `b` that has every attribute of `e` and the name `b`, leaves the
entity under `a` as it was, and selects the clone; any later edit of the clone
changes the entity under `b` only, the entity under `a` stays as it was. -/
theorem clone_is_independent_copy (s : State) (a b : String) (e : Effect)
    (ho : s.object = some a) (ha : s.working a = some e) (hb : s.working b = none) :
    (cloneEffect s b).working b = some { e with name := b } ∧
      (cloneEffect s b).working a = some e ∧
      (cloneEffect s b).object = some b ∧
      ∀ f : Effect → Effect,
        (editSelected (cloneEffect s b) f).working b = some (f { e with name := b }) ∧
        (editSelected (cloneEffect s b) f).working a = some e := by
  have hab : a ≠ b := by
    rintro rfl
    rw [ha] at hb
    cases hb
  have hw : (cloneEffect s b).working = ((s.working.store b Effect.default).store b e).store b
      { e with name := b } := by
    rw [cloneEffect_accepted s a b e ho ha hb, SetDirty_working]
  have hobj : (cloneEffect s b).object = some b := by
    rw [cloneEffect_accepted s a b e ho ha hb, SetDirty_object]
  have hwb : (cloneEffect s b).working b = some { e with name := b } := by
    rw [hw, store_same]
  have hwa : (cloneEffect s b).working a = some e := by
    rw [hw, store_other _ _ _ _ hab, store_other _ _ _ _ hab, store_other _ _ _ _ hab, ha]
  refine ⟨hwb, hwa, hobj, ?_⟩
  intro f
  have hsel : (cloneEffect s b).selected = some { e with name := b } := by
    simp [State.selected, hobj, hwb]
  have he : (editSelected (cloneEffect s b) f).working
      = (cloneEffect s b).working.store b (f { e with name := b }) := by
    simp [editSelected, hobj, hsel, SetDirty_working]
  rw [he]
  exact ⟨store_same _ _ _, by rw [store_other _ _ _ _ hab, hwa]⟩

/-- C8, witness: cloning "spark" under the name "ember" in `sparkState`. -/
theorem clone_spark_as_ember :
    (sparkState.object = some "spark" ∧ sparkState.working "spark" = some spark ∧
      sparkState.working "ember" = none) ∧
    ((cloneEffect sparkState "ember").working "ember" = some { spark with name := "ember" } ∧
      (cloneEffect sparkState "ember").working "spark" = some spark ∧
      (cloneEffect sparkState "ember").object = some "ember" ∧
      ∀ f : Effect → Effect,
        (editSelected (cloneEffect sparkState "ember") f).working "ember"
          = some (f { spark with name := "ember" }) ∧
        (editSelected (cloneEffect sparkState "ember") f).working "spark" = some spark) :=
  ⟨⟨rfl, rfl, rfl⟩, clone_is_independent_copy sparkState "spark" "ember" spark rfl rfl rfl⟩

theorem nameKey_newEffect (s : State) (name : String) (h : NameKeyConsistent s) :
    NameKeyConsistent (newEffect s name) := by
  unfold newEffect
  split
  · exact h
  · unfold NameKeyConsistent
    rw [SetDirty_working]
    intro k e hk
    dsimp only at hk
    unfold Registry.store at hk
    split at hk
    · cases hk
      subst_vars
      rfl
    · unfold Registry.Get at hk
      split at hk
      · exact h k e hk
      · dsimp only at hk
        unfold Registry.store at hk
        split at hk
        · contradiction
        · exact h k e hk

theorem nameKey_renameEffect (s : State) (name : String) (h : NameKeyConsistent s) :
    NameKeyConsistent (renameEffect s name) := by
  unfold renameEffect
  split
  · exact h
  next hfree =>
    cases ho : s.object with
    | none => exact h
    | some k =>
      cases hk : s.working k with
      | none => simpa only [hk] using h
      | some e =>
        have hname : e.name = k := h k e hk
        have hnone : s.working name = none := by
          simpa [Registry.Find] using hfree
        have hmoves : s.working.moves k name = true := by
          simp [Registry.moves, Registry.Has, hnone, hk]
        have hfollow : s.working.follow k name k = name := by
          simp [Registry.follow, hmoves]
        simp only [hk, hname, hfollow]
        unfold NameKeyConsistent
        rw [SetDirty_working]
        intro k1 e1 h1
        dsimp only at h1
        unfold Registry.store at h1
        split at h1
        · cases h1
          subst_vars
          rfl
        · unfold Registry.Rename at h1
          simp only [Registry.Has, hnone, Option.isSome_none, Bool.false_eq_true, if_false,
            hk] at h1
          split at h1
          · contradiction
          · split at h1
            · contradiction
            · exact h k1 e1 h1

theorem nameKey_cloneEffect (s : State) (name : String) (h : NameKeyConsistent s) :
    NameKeyConsistent (cloneEffect s name) := by
  unfold cloneEffect
  split
  · exact h
  next hfree =>
    have hnone : s.working name = none := by
      simpa [Registry.Find] using hfree
    have hg : s.working.Get name = (Effect.default, s.working.store name Effect.default) := by
      simp [Registry.Get, hnone]
    rw [hg]
    cases hd : s.object.bind (s.working.store name Effect.default) with
    | none => simpa only [hd] using h
    | some e =>
      simp only [hd]
      unfold NameKeyConsistent
      rw [SetDirty_working]
      intro k1 e1 h1
      dsimp only at h1
      unfold Registry.store at h1
      split at h1
      · cases h1
        subst_vars
        rfl
      · exact h k1 e1 h1

theorem nameKey_deleteEffect (s : State) (h : NameKeyConsistent s) :
    NameKeyConsistent (deleteEffect s) := by
  unfold deleteEffect
  split
  · split
    · intro k1 e1 h1
      dsimp only at h1
      unfold Registry.Erase at h1
      split at h1
      · contradiction
      · exact h k1 e1 h1
    · exact h
  · exact h

/-- An accepted New creates the entity under its name, with that name and every
attribute at its default, and selects it. -/
theorem newEffect_accepted (s : State) (name : String) (h : s.working name = none) :
    (newEffect s name).working name = some { Effect.default with name := name } ∧
      (newEffect s name).object = some name := by
  have hg : s.working.Get name = (Effect.default, s.working.store name Effect.default) := by
    simp [Registry.Get, h]
  unfold newEffect
  simp only [Registry.Find, h, Option.isSome_none, Bool.false_eq_true, if_false, hg,
    SetDirty_working, SetDirty_object, store_same, and_self]

/-- An accepted Rename of a consistently stored, selected entity moves it to
the new key with the new name, frees the old key and keeps it selected. -/
theorem renameEffect_accepted (s : State) (k name : String) (e : Effect)
    (ho : s.object = some k) (hk : s.working k = some e) (hname : e.name = k)
    (h : s.working name = none) :
    (renameEffect s name).working name = some { e with name := name } ∧
      (renameEffect s name).working k = none ∧
      (renameEffect s name).object = some name := by
  have hkn : k ≠ name := by
    rintro rfl
    rw [hk] at h
    cases h
  have hmoves : s.working.moves k name = true := by
    simp [Registry.moves, Registry.Has, h, hk]
  have hfollow : s.working.follow k name k = name := by
    simp [Registry.follow, hmoves]
  unfold renameEffect
  simp only [Registry.Find, h, Option.isSome_none, Bool.false_eq_true, if_false, ho, hk, hname,
    hfollow, SetDirty_working, SetDirty_object, store_same, true_and, and_true]
  rw [store_other _ _ _ _ hkn]
  simp [Registry.Rename, Registry.Has, h, hk, hkn]

/-- C10: if every entity of the working registry is stored under its own name,
then the same holds after New, Rename and Clone, for every requested name
(taken or free), and after Delete. -/
theorem name_key_consistency_preserved (s : State) (name : String)
    (h : NameKeyConsistent s) :
    NameKeyConsistent (newEffect s name) ∧ NameKeyConsistent (renameEffect s name) ∧
      NameKeyConsistent (cloneEffect s name) ∧ NameKeyConsistent (deleteEffect s) :=
  ⟨nameKey_newEffect s name h, nameKey_renameEffect s name h, nameKey_cloneEffect s name h,
   nameKey_deleteEffect s h⟩

theorem nameKey_sparkState : NameKeyConsistent sparkState := by
  intro k e hk
  have hk2 : (if k = "spark" then some spark else none) = some e := hk
  split at hk2
  next hs =>
    cases hk2
    rw [hs]
    rfl
  next => contradiction

/-- C10, witness: `sparkState` is name/key consistent, and stays so under the
four operations with the free name "ember". -/
theorem spark_state_stays_consistent :
    NameKeyConsistent sparkState ∧
      (NameKeyConsistent (newEffect sparkState "ember") ∧
        NameKeyConsistent (renameEffect sparkState "ember") ∧
        NameKeyConsistent (cloneEffect sparkState "ember") ∧
        NameKeyConsistent (deleteEffect sparkState)) :=
  ⟨nameKey_sparkState, name_key_consistency_preserved sparkState "ember" nameKey_sparkState⟩

end EffectEditor
